import Mathlib

/-!
Verification of the cryptocurrency transaction processor in
`src/backend/src/transactions.rs` (Exonum-based demo service).

The executable semantics below is a shallow embedding of that file:
the three operation records (`Transfer`, `Issue`, `CreateWallet`), the
error taxonomy, and their `execute` implementations are translated
line-by-line from the Rust source.  Machine integers (`u64`) are
modelled as `Nat` with explicit reduction modulo `2 ^ 64` where the
source performs unchecked arithmetic; `i64` timestamps are modelled as
`Int` (parse range-checked as in Rust).  The ledger store
(`CurrencySchema` in `schema.rs`) is not part of the given sources, so
its four primitives are modelled from the specification's Ledger View
interface (§6); those definitions carry a `Modelled from the spec:`
doc comment.
-/

namespace Currency

/-- `2 ^ 64`, the modulus of Rust's `u64` arithmetic. -/
def U64MOD : Nat := 2 ^ 64

/-- Wrapping `u64` addition: `(a + b) mod 2 ^ 64`. -/
def u64add (a b : Nat) : Nat := (a + b) % U64MOD

/-- Wrapping `u64` multiplication: `(a * b) mod 2 ^ 64`. -/
def u64mul (a b : Nat) : Nat := (a * b) % U64MOD

/-- Wrapping `u64` subtraction: `(a - b) mod 2 ^ 64` (release-mode Rust
semantics; two's-complement wraparound when `b > a`). -/
def u64sub (a b : Nat) : Nat := (a + (U64MOD - b % U64MOD)) % U64MOD

/-- A wallet record as stored by the ledger (spec §3): public key,
display name, `u64` balance, and the hash of the last mutating
operation (provenance for audit chaining). -/
structure Wallet where
  pub_key : Nat
  name : String
  balance : Nat
  history_hash : Nat
deriving DecidableEq, Repr

/-- Modelled from the spec: the external versioned key-value store
holding the wallets, presented through `CurrencySchema` (defined in
`schema.rs`, which is not among the given sources).  The store maps
public keys to wallet records; keys are unique (§3), which the
association-list representation realises because `create_wallet` is
only invoked after a failed lookup. -/
structure CurrencySchema where
  wallets : List Wallet
deriving DecidableEq, Repr

/-- Lookup of a wallet by public key in an association list. -/
def findWallet (l : List Wallet) (k : Nat) : Option Wallet :=
  l.find? (fun w => w.pub_key == k)

/-- Modelled from the spec: `lookup_wallet(key) -> optional Wallet`
(§6) — returns the wallet record for a public key, or none. -/
def CurrencySchema.wallet (s : CurrencySchema) (k : Nat) : Option Wallet :=
  findWallet s.wallets k

/-- Pointwise update of the record stored under key `k` (helper for the
two balance-mutation primitives). -/
def updateWallet (s : CurrencySchema) (k : Nat) (f : Wallet → Wallet) :
    CurrencySchema :=
  ⟨s.wallets.map fun w => if w.pub_key = k then f w else w⟩

/-- Modelled from the spec: `create_wallet(key, name, provenance_hash)`
(§6) — inserts a new wallet with balance 0 and the given provenance. -/
def CurrencySchema.create_wallet (s : CurrencySchema) (k : Nat)
    (name : String) (hash : Nat) : CurrencySchema :=
  ⟨⟨k, name, 0, hash⟩ :: s.wallets⟩

/-- Modelled from the spec: `increase_balance(wallet, amount,
provenance_hash)` (§6) — adds `amount` to the wallet's stored balance
(`u64` wrapping) and records the provenance hash. -/
def CurrencySchema.increase_wallet_balance (s : CurrencySchema)
    (w : Wallet) (amount : Nat) (hash : Nat) : CurrencySchema :=
  updateWallet s w.pub_key fun x =>
    { x with balance := u64add x.balance amount, history_hash := hash }

/-- Modelled from the spec: `decrease_balance(wallet, amount,
provenance_hash)` (§6) — subtracts `amount` from the wallet's stored
balance and records the provenance hash.  The spec says the caller
guarantees sufficiency; since `Transfer::execute` checks only `amount`
but debits `amount * 3`, that precondition can be violated, and the
`u64` subtraction then wraps modulo `2 ^ 64` (release-mode Rust). -/
def CurrencySchema.decrease_wallet_balance (s : CurrencySchema)
    (w : Wallet) (amount : Nat) (hash : Nat) : CurrencySchema :=
  updateWallet s w.pub_key fun x =>
    { x with balance := u64sub x.balance amount, history_hash := hash }

/-- Error codes emitted by wallet transactions during execution
(`transactions.rs` lines 30–54, `#[repr(u8)]`). -/
inductive Error where
  | WalletAlreadyExists
  | SenderNotFound
  | ReceiverNotFound
  | InsufficientCurrencyAmount
deriving DecidableEq, Repr

/-- The `repr(u8)` discriminant of each `Error` variant. -/
def Error.code : Error → Nat
  | .WalletAlreadyExists => 0
  | .SenderNotFound => 1
  | .ReceiverNotFound => 2
  | .InsufficientCurrencyAmount => 3

/-- The `#[fail(display = ...)]` description string of each variant. -/
def Error.description : Error → String
  | .WalletAlreadyExists => "Wallet already exists"
  | .SenderNotFound => "Sender doesn't exist"
  | .ReceiverNotFound => "Receiver doesn't exist"
  | .InsufficientCurrencyAmount => "Insufficient currency amount"

/-- `ExecutionError` as produced by
`ExecutionError::with_description(code, description)`. -/
structure ExecutionError where
  code : Nat
  description : String
deriving DecidableEq, Repr

/-- `impl From<Error> for ExecutionError` (lines 56–61): the numeric
discriminant becomes the code, the display string the description. -/
def executionErrorFrom (e : Error) : ExecutionError :=
  ⟨e.code, e.description⟩

/-- The `Transfer` operation record (`transactions!` block): sender,
three recipients, `u64` amount and seed, and a string-encoded
timestamp.  The content hash `self.hash()` is computed by the framework
from the signed record; `execute` receives it as a parameter here. -/
structure Transfer where
  «from» : Nat
  «to» : Nat
  to_second : Nat
  to_third : Nat
  amount : Nat
  seed : Nat
  tx_time : String
deriving DecidableEq, Repr

/-- The `Issue` operation record: one recipient and three amounts. -/
structure Issue where
  pub_key : Nat
  amount : Nat
  amount_second : Nat
  amount_third : Nat
  seed : Nat
deriving DecidableEq, Repr

/-- The `CreateWallet` operation record. -/
structure CreateWallet where
  pub_key : Nat
  name : String
deriving DecidableEq, Repr

/-- Digit-string to number: `some` iff nonempty and all characters are
ASCII digits (the body of Rust's integer parsing after the sign). -/
def parseDigits : List Char → Option Nat
  | [] => none
  | cs =>
    if cs.all (fun c => c.isDigit) then
      some (cs.foldl (fun n c => n * 10 + (c.toNat - 48)) 0)
    else none

/-- Rust's `str::parse::<i64>()`: an optional `+`/`-` sign followed by
at least one ASCII digit, rejected on overflow of the `i64` range
`[-2 ^ 63, 2 ^ 63 - 1]`. -/
def parseI64 (s : String) : Option Int :=
  match s.data with
  | [] => none
  | c :: rest =>
    if c = '+' then
      (parseDigits rest).bind fun n =>
        if n ≤ 2 ^ 63 - 1 then some (n : Int) else none
    else if c = '-' then
      (parseDigits rest).bind fun n =>
        if n ≤ 2 ^ 63 then some (-(n : Int)) else none
    else
      (parseDigits (c :: rest)).bind fun n =>
        if n ≤ 2 ^ 63 - 1 then some (n : Int) else none

/-- The time-window gate of `Transfer::execute` (line 137):
`current_time > tx_time && current_time < (tx_time + 2160000)`. -/
def transferGate (tx_time current_time : Int) : Bool :=
  current_time > tx_time && current_time < (tx_time + 2160000)

/-- `Transfer::execute` (lines 111–161).  `current_time` stands for the
wall-clock read `self.timestamping()` (milliseconds), `hash` for
`self.hash()`.  The result is `none` when the Rust code panics (the
`tx_time.parse::<i64>().unwrap()` on line 123); otherwise it is the
`ExecutionResult` paired with the resulting ledger view. -/
def Transfer.execute (tx : Transfer) (current_time : Int) (hash : Nat)
    (s : CurrencySchema) :
    Option (Except ExecutionError Unit × CurrencySchema) :=
  match parseI64 tx.tx_time with
  | none => none
  | some tx_time =>
    match s.wallet tx.«from» with
    | none => some (.error (executionErrorFrom .SenderNotFound), s)
    | some sender =>
      match s.wallet tx.«to» with
      | none => some (.error (executionErrorFrom .ReceiverNotFound), s)
      | some receiver =>
        match s.wallet tx.to_second with
        | none => some (.error (executionErrorFrom .ReceiverNotFound), s)
        | some receiver_second =>
          match s.wallet tx.to_third with
          | none => some (.error (executionErrorFrom .ReceiverNotFound), s)
          | some receiver_third =>
            if sender.balance < tx.amount then
              some (.error (executionErrorFrom .InsufficientCurrencyAmount), s)
            else if transferGate tx_time current_time then
              let total_amount := u64mul tx.amount 3
              let s1 := s.decrease_wallet_balance sender total_amount hash
              let s2 := s1.increase_wallet_balance receiver tx.amount hash
              let s3 := s2.increase_wallet_balance receiver_second tx.amount hash
              let s4 := s3.increase_wallet_balance receiver_third tx.amount hash
              some (.ok (), s4)
            else
              some (.ok (), s)

/-- `Issue::execute` (lines 168–183): credit the wallet under `pub_key`
with the `u64` sum `amount_third + amount + amount_second` (line 177),
or fail with `ReceiverNotFound`. -/
def Issue.execute (tx : Issue) (hash : Nat) (s : CurrencySchema) :
    Except ExecutionError Unit × CurrencySchema :=
  match s.wallet tx.pub_key with
  | some wallet =>
    let sum_amount := u64add (u64add tx.amount_third tx.amount) tx.amount_second
    (.ok (), s.increase_wallet_balance wallet sum_amount hash)
  | none => (.error (executionErrorFrom .ReceiverNotFound), s)

/-- `CreateWallet::execute` (lines 191–203): create a zero-balance
wallet under `pub_key` if none exists, else fail with
`WalletAlreadyExists`. -/
def CreateWallet.execute (tx : CreateWallet) (hash : Nat)
    (s : CurrencySchema) : Except ExecutionError Unit × CurrencySchema :=
  match s.wallet tx.pub_key with
  | none => (.ok (), s.create_wallet tx.pub_key tx.name hash)
  | some _ => (.error (executionErrorFrom .WalletAlreadyExists), s)

/-- A committed operation of the ledger: one of the three transaction
kinds together with its content hash (and, for `Transfer`, the
wall-clock timestamp observed during execution). -/
inductive Op where
  | create (tx : CreateWallet) (hash : Nat)
  | issue (tx : Issue) (hash : Nat)
  | transfer (tx : Transfer) (current_time : Int) (hash : Nat)
deriving Repr

/-- Modelled from the spec: the host runtime's commit/rollback rule
(§6) — mutations of a successful `execute` are retained, mutations of a
failed one are discarded (and a panic aborts the operation with no
commit). -/
def applyOp (s : CurrencySchema) : Op → CurrencySchema
  | .create tx h =>
    match CreateWallet.execute tx h s with
    | (.ok _, s') => s'
    | (.error _, _) => s
  | .issue tx h =>
    match Issue.execute tx h s with
    | (.ok _, s') => s'
    | (.error _, _) => s
  | .transfer tx ct h =>
    match Transfer.execute tx ct h s with
    | some (.ok _, s') => s'
    | _ => s

/-- A sequence of committed operations applied to an initial ledger. -/
def applyOps (s : CurrencySchema) (ops : List Op) : CurrencySchema :=
  ops.foldl applyOp s

/-- The non-negativity property claimed for committed transfers: a
`Transfer` that commits with effect never debits more than the sender's
balance — `3 * amount ≤ balance` — so the sender's mathematical balance
stays non-negative. -/
def transferKeepsSenderNonneg : Prop :=
  ∀ (tx : Transfer) (ct : Int) (hash : Nat) (s s2 : CurrencySchema)
    (sender : Wallet),
    s.wallet tx.«from» = some sender →
    Transfer.execute tx ct hash s = some (.ok (), s2) →
    s2 ≠ s →
    3 * tx.amount ≤ sender.balance

/-- A ledger state reachable by committed operations: wallets 1–4
created, then 40 units issued to wallet 1. -/
def c1State : CurrencySchema :=
  applyOps ⟨[]⟩ [.create ⟨1, "A"⟩ 11, .create ⟨2, "B"⟩ 12,
    .create ⟨3, "C"⟩ 13, .create ⟨4, "D"⟩ 14, .issue ⟨1, 40, 0, 0, 0⟩ 15]

/-! ## Frame lemmas for the modelled store -/

/-- The wallet found under key `k` carries `k` as its public key. -/
theorem findWallet_pub_key {l : List Wallet} {k : Nat} {w : Wallet}
    (h : findWallet l k = some w) : w.pub_key = k := by
  have := List.find?_some h
  simpa using this

/-- `find?` commutes with mapping a function that preserves the
predicate. -/
theorem find?_map_pres {α : Type} (p : α → Bool) (g : α → α)
    (hg : ∀ a, p (g a) = p a) :
    ∀ l : List α, (l.map g).find? p = (l.find? p).map g := by
  intro l
  induction l with
  | nil => rfl
  | cons a l ih =>
    simp only [List.map_cons, List.find?_cons, hg a]
    cases p a <;> simp [ih]

/-- Lookup after a pointwise update, raw form. -/
theorem wallet_updateWallet (s : CurrencySchema) (k : Nat)
    (f : Wallet → Wallet) (hf : ∀ w, (f w).pub_key = w.pub_key) (k2 : Nat) :
    (updateWallet s k f).wallet k2 =
      (s.wallet k2).map fun w => if w.pub_key = k then f w else w := by
  unfold updateWallet CurrencySchema.wallet findWallet
  refine find?_map_pres _ _ (fun a => ?_) s.wallets
  by_cases h : a.pub_key = k <;> simp [h, hf]

/-- Lookup after a pointwise update: the updated key sees the image
under `f`, every other key is untouched. -/
theorem wallet_update_eq (s : CurrencySchema) (k : Nat) (f : Wallet → Wallet)
    (hf : ∀ w, (f w).pub_key = w.pub_key) (k2 : Nat) :
    (updateWallet s k f).wallet k2 =
      if k2 = k then (s.wallet k).map f else s.wallet k2 := by
  rw [wallet_updateWallet s k f hf k2]
  by_cases hk : k2 = k
  · subst hk
    cases hw : s.wallet k2 with
    | none => simp
    | some x =>
      have hx : x.pub_key = k2 := findWallet_pub_key hw
      simp [hx]
  · cases hw : s.wallet k2 with
    | none => simp [hk]
    | some x =>
      have hx : x.pub_key = k2 := findWallet_pub_key hw
      simp [hx, hk]

/-- Lookup after `increase_wallet_balance`. -/
theorem wallet_increase_eq (s : CurrencySchema) (w : Wallet)
    (amount hash k : Nat) :
    (s.increase_wallet_balance w amount hash).wallet k =
      if k = w.pub_key then
        (s.wallet w.pub_key).map fun x =>
          { x with balance := u64add x.balance amount, history_hash := hash }
      else s.wallet k := by
  unfold CurrencySchema.increase_wallet_balance
  exact wallet_update_eq s w.pub_key
    (fun x => { x with balance := u64add x.balance amount, history_hash := hash })
    (fun x => rfl) k

/-- Lookup after `decrease_wallet_balance`. -/
theorem wallet_decrease_eq (s : CurrencySchema) (w : Wallet)
    (amount hash k : Nat) :
    (s.decrease_wallet_balance w amount hash).wallet k =
      if k = w.pub_key then
        (s.wallet w.pub_key).map fun x =>
          { x with balance := u64sub x.balance amount, history_hash := hash }
      else s.wallet k := by
  unfold CurrencySchema.decrease_wallet_balance
  exact wallet_update_eq s w.pub_key
    (fun x => { x with balance := u64sub x.balance amount, history_hash := hash })
    (fun x => rfl) k

/-- Lookup after `create_wallet`: the new key sees the fresh record,
every other key is untouched. -/
theorem wallet_create_eq (s : CurrencySchema) (k : Nat) (name : String)
    (hash : Nat) (k2 : Nat) :
    (s.create_wallet k name hash).wallet k2 =
      if k2 = k then some ⟨k, name, 0, hash⟩ else s.wallet k2 := by
  unfold CurrencySchema.create_wallet CurrencySchema.wallet findWallet
  by_cases hk : k2 = k
  · subst hk; simp [List.find?_cons]
  · simp only [List.find?_cons]
    have : (k == k2) = false := by simpa using fun h => hk h.symm
    simp [this, hk]

/-! ## Branch lemmas for `Transfer.execute` -/

/-- `Transfer.execute` when the sender lookup fails. -/
theorem transfer_sender_missing (tx : Transfer) (ct : Int) (hash : Nat)
    (s : CurrencySchema) (t : Int) (hp : parseI64 tx.tx_time = some t)
    (hs : s.wallet tx.«from» = none) :
    Transfer.execute tx ct hash s =
      some (.error (executionErrorFrom .SenderNotFound), s) := by
  unfold Transfer.execute
  rw [hp, hs]

/-- `Transfer.execute` when the first recipient lookup fails. -/
theorem transfer_to_missing (tx : Transfer) (ct : Int) (hash : Nat)
    (s : CurrencySchema) (t : Int) (sender : Wallet)
    (hp : parseI64 tx.tx_time = some t)
    (hs : s.wallet tx.«from» = some sender)
    (h1 : s.wallet tx.«to» = none) :
    Transfer.execute tx ct hash s =
      some (.error (executionErrorFrom .ReceiverNotFound), s) := by
  unfold Transfer.execute
  rw [hp, hs, h1]

/-- `Transfer.execute` when the second recipient lookup fails. -/
theorem transfer_to_second_missing (tx : Transfer) (ct : Int) (hash : Nat)
    (s : CurrencySchema) (t : Int) (sender receiver : Wallet)
    (hp : parseI64 tx.tx_time = some t)
    (hs : s.wallet tx.«from» = some sender)
    (h1 : s.wallet tx.«to» = some receiver)
    (h2 : s.wallet tx.to_second = none) :
    Transfer.execute tx ct hash s =
      some (.error (executionErrorFrom .ReceiverNotFound), s) := by
  unfold Transfer.execute
  rw [hp, hs, h1, h2]

/-- `Transfer.execute` when the third recipient lookup fails. -/
theorem transfer_to_third_missing (tx : Transfer) (ct : Int) (hash : Nat)
    (s : CurrencySchema) (t : Int) (sender receiver receiver_second : Wallet)
    (hp : parseI64 tx.tx_time = some t)
    (hs : s.wallet tx.«from» = some sender)
    (h1 : s.wallet tx.«to» = some receiver)
    (h2 : s.wallet tx.to_second = some receiver_second)
    (h3 : s.wallet tx.to_third = none) :
    Transfer.execute tx ct hash s =
      some (.error (executionErrorFrom .ReceiverNotFound), s) := by
  unfold Transfer.execute
  rw [hp, hs, h1, h2, h3]

/-- `Transfer.execute` when the single-amount balance check fails. -/
theorem transfer_insufficient (tx : Transfer) (ct : Int) (hash : Nat)
    (s : CurrencySchema) (t : Int)
    (sender receiver receiver_second receiver_third : Wallet)
    (hp : parseI64 tx.tx_time = some t)
    (hs : s.wallet tx.«from» = some sender)
    (h1 : s.wallet tx.«to» = some receiver)
    (h2 : s.wallet tx.to_second = some receiver_second)
    (h3 : s.wallet tx.to_third = some receiver_third)
    (hbal : sender.balance < tx.amount) :
    Transfer.execute tx ct hash s =
      some (.error (executionErrorFrom .InsufficientCurrencyAmount), s) := by
  simp only [Transfer.execute, hp, hs, h1, h2, h3, if_pos hbal]

/-- `Transfer.execute` when all lookups and the balance check pass but
the time-window gate is closed: success with the ledger untouched. -/
theorem transfer_gate_fail (tx : Transfer) (ct : Int) (hash : Nat)
    (s : CurrencySchema) (t : Int)
    (sender receiver receiver_second receiver_third : Wallet)
    (hp : parseI64 tx.tx_time = some t)
    (hs : s.wallet tx.«from» = some sender)
    (h1 : s.wallet tx.«to» = some receiver)
    (h2 : s.wallet tx.to_second = some receiver_second)
    (h3 : s.wallet tx.to_third = some receiver_third)
    (hbal : ¬ sender.balance < tx.amount)
    (hgate : transferGate t ct = false) :
    Transfer.execute tx ct hash s = some (.ok (), s) := by
  simp only [Transfer.execute, hp, hs, h1, h2, h3, if_neg hbal, hgate,
    Bool.false_eq_true, if_false]

/-- `Transfer.execute` when everything passes: the four mutations of
the source, in source order. -/
theorem transfer_gate_pass (tx : Transfer) (ct : Int) (hash : Nat)
    (s : CurrencySchema) (t : Int)
    (sender receiver receiver_second receiver_third : Wallet)
    (hp : parseI64 tx.tx_time = some t)
    (hs : s.wallet tx.«from» = some sender)
    (h1 : s.wallet tx.«to» = some receiver)
    (h2 : s.wallet tx.to_second = some receiver_second)
    (h3 : s.wallet tx.to_third = some receiver_third)
    (hbal : ¬ sender.balance < tx.amount)
    (hgate : transferGate t ct = true) :
    Transfer.execute tx ct hash s =
      some (.ok (),
        (((s.decrease_wallet_balance sender (u64mul tx.amount 3)
            hash).increase_wallet_balance receiver tx.amount
            hash).increase_wallet_balance receiver_second tx.amount
            hash).increase_wallet_balance receiver_third tx.amount hash) := by
  simp only [Transfer.execute, hp, hs, h1, h2, h3, if_neg hbal, hgate, if_true]

/-! ## Arithmetic and gate helpers -/

/-- A wallet looked up under key `k` carries `k` as its public key. -/
theorem wallet_pub_key {s : CurrencySchema} {k : Nat} {w : Wallet}
    (h : s.wallet k = some w) : w.pub_key = k :=
  findWallet_pub_key h

/-- The Boolean gate holds exactly on the open window
`(tx_time, tx_time + 2160000)`. -/
theorem transferGate_iff (t ct : Int) :
    transferGate t ct = true ↔ t < ct ∧ ct < t + 2160000 := by
  unfold transferGate
  simp [Bool.and_eq_true, decide_eq_true_eq]

/-- `u64` subtraction is exact when the subtrahend fits. -/
theorem u64sub_of_le (b a : Nat) (hb : b < U64MOD) (h : a ≤ b) :
    u64sub b a = b - a := by
  unfold u64sub
  have haM : a < U64MOD := lt_of_le_of_lt h hb
  rw [Nat.mod_eq_of_lt haM]
  rw [show b + (U64MOD - a) = b - a + U64MOD by omega]
  rw [Nat.add_mod_right]
  exact Nat.mod_eq_of_lt (by omega)

/-- The `u64` sum `amount_third + amount + amount_second` of
`Issue::execute`, folded into a single reduction. -/
theorem u64add_sum (b a1 a2 a3 : Nat) :
    u64add b (u64add (u64add a3 a1) a2) = (b + (a1 + a2 + a3)) % U64MOD := by
  unfold u64add
  rw [Nat.add_mod_mod]
  rw [show b + ((a3 + a1) % U64MOD + a2) = b + a2 + (a3 + a1) % U64MOD by ring]
  rw [Nat.add_mod_mod]
  congr 1
  ring

/-! ## Claims -/

/-- C9: `Transfer::execute` unwraps the `i64` parse of `tx_time`
(line 123); on any string that does not parse it panics — yielding no
success or error outcome — before any wallet lookup's result is used,
for every ledger state and timestamp. -/
theorem c9_transfer_panics_on_bad_tx_time (tx : Transfer)
    (current_time : Int) (hash : Nat) (s : CurrencySchema)
    (h : parseI64 tx.tx_time = none) :
    Transfer.execute tx current_time hash s = none := by
  unfold Transfer.execute
  rw [h]

/-- Witness for C9: a concrete transfer with non-numeric `tx_time`
panics even though all four wallets exist and the balance suffices. -/
theorem c9_witness :
    Transfer.execute ⟨1, 2, 3, 4, 5, 0, "12a"⟩ 100 7
      ⟨[⟨1, "A", 50, 0⟩, ⟨2, "B", 0, 0⟩, ⟨3, "C", 0, 0⟩, ⟨4, "D", 0, 0⟩]⟩ =
      none :=
  c9_transfer_panics_on_bad_tx_time _ _ _ _ (by decide)

/-- C8: the error taxonomy is a closed set of exactly four variants,
and the numeric discriminants carried into the execution outcome are
0, 1, 2, 3 in the documented order. -/
theorem c8_error_codes :
    (∀ e : Error, e = .WalletAlreadyExists ∨ e = .SenderNotFound ∨
        e = .ReceiverNotFound ∨ e = .InsufficientCurrencyAmount) ∧
    (executionErrorFrom .WalletAlreadyExists).code = 0 ∧
    (executionErrorFrom .SenderNotFound).code = 1 ∧
    (executionErrorFrom .ReceiverNotFound).code = 2 ∧
    (executionErrorFrom .InsufficientCurrencyAmount).code = 3 :=
  ⟨fun e => by cases e <;> simp, rfl, rfl, rfl, rfl⟩

/-- C10: the total debit `amount * 3` (line 143) and the credit sum
`amount_third + amount + amount_second` (line 177) use unchecked `u64`
arithmetic: at `amount = 2 ^ 63` a committed transfer debits the
sender by `(3 * 2 ^ 63) % 2 ^ 64 = 2 ^ 63` (balance 0 afterwards, the
mathematical value reduced modulo `2 ^ 64`, not the value itself), and
an `Issue` of `(2 ^ 63, 2, 2 ^ 63)` credits only `2`, not
`2 ^ 64 + 2`. -/
theorem c10_unchecked_arithmetic :
    (Transfer.execute ⟨1, 2, 3, 4, 2 ^ 63, 0, "0"⟩ 1 9
        ⟨[⟨1, "A", 2 ^ 63, 5⟩, ⟨2, "B", 0, 5⟩, ⟨3, "C", 0, 5⟩,
          ⟨4, "D", 0, 5⟩]⟩).map
        (fun r => (r.2.wallet 1).map Wallet.balance) = some (some 0) ∧
    ((0 : Int) = ((2 ^ 63 : Int) - 3 * 2 ^ 63) % 2 ^ 64 ∧
      (0 : Int) ≠ (2 ^ 63 : Int) - 3 * 2 ^ 63) ∧
    ((Issue.execute ⟨1, 2 ^ 63, 2, 2 ^ 63, 0⟩ 9
        ⟨[⟨1, "A", 0, 5⟩]⟩).2.wallet 1).map Wallet.balance = some 2 ∧
    (2 = (0 + (2 ^ 63 + 2 + 2 ^ 63)) % 2 ^ 64 ∧
      (2 : Nat) ≠ 0 + (2 ^ 63 + 2 + 2 ^ 63)) := by
  refine ⟨by decide, ⟨by decide, by decide⟩, by decide, ⟨by decide, by decide⟩⟩

/-- C5: the sender lookup fails with `SenderNotFound`, any missing
recipient with `ReceiverNotFound`; each lookup error occurs before the
balance check is consulted and leaves the ledger unchanged. -/
theorem c5_transfer_lookup_errors (tx : Transfer) (ct : Int) (hash : Nat)
    (s : CurrencySchema) (t : Int) (hp : parseI64 tx.tx_time = some t) :
    (s.wallet tx.«from» = none →
      Transfer.execute tx ct hash s =
        some (.error (executionErrorFrom .SenderNotFound), s)) ∧
    (∀ sender, s.wallet tx.«from» = some sender → s.wallet tx.«to» = none →
      Transfer.execute tx ct hash s =
        some (.error (executionErrorFrom .ReceiverNotFound), s)) ∧
    (∀ sender receiver, s.wallet tx.«from» = some sender →
      s.wallet tx.«to» = some receiver → s.wallet tx.to_second = none →
      Transfer.execute tx ct hash s =
        some (.error (executionErrorFrom .ReceiverNotFound), s)) ∧
    (∀ sender receiver receiver_second, s.wallet tx.«from» = some sender →
      s.wallet tx.«to» = some receiver →
      s.wallet tx.to_second = some receiver_second →
      s.wallet tx.to_third = none →
      Transfer.execute tx ct hash s =
        some (.error (executionErrorFrom .ReceiverNotFound), s)) :=
  ⟨fun hs => transfer_sender_missing tx ct hash s t hp hs,
   fun sender hs h1 => transfer_to_missing tx ct hash s t sender hp hs h1,
   fun sender receiver hs h1 h2 =>
     transfer_to_second_missing tx ct hash s t sender receiver hp hs h1 h2,
   fun sender receiver r2 hs h1 h2 h3 =>
     transfer_to_third_missing tx ct hash s t sender receiver r2 hp hs h1 h2 h3⟩

/-- Witness for C5: a missing sender and a missing first recipient at
concrete inputs. -/
theorem c5_witness :
    Transfer.execute ⟨1, 2, 3, 4, 5, 0, "0"⟩ 1 7 ⟨[]⟩ =
      some (.error (executionErrorFrom .SenderNotFound), ⟨[]⟩) ∧
    Transfer.execute ⟨1, 2, 3, 4, 5, 0, "0"⟩ 1 7 ⟨[⟨1, "A", 9, 0⟩]⟩ =
      some (.error (executionErrorFrom .ReceiverNotFound),
        ⟨[⟨1, "A", 9, 0⟩]⟩) :=
  ⟨(c5_transfer_lookup_errors ⟨1, 2, 3, 4, 5, 0, "0"⟩ 1 7 ⟨[]⟩ 0
      (by decide)).1 rfl,
   (c5_transfer_lookup_errors ⟨1, 2, 3, 4, 5, 0, "0"⟩ 1 7 ⟨[⟨1, "A", 9, 0⟩]⟩ 0
      (by decide)).2.1 ⟨1, "A", 9, 0⟩ rfl rfl⟩

/-- C4: with all four wallets present and the sender's balance strictly
below `amount` (the single-amount check), execution fails with
`InsufficientCurrencyAmount` and leaves the ledger unchanged, whatever
the execution-time timestamp. -/
theorem c4_transfer_insufficient (tx : Transfer) (hash : Nat)
    (s : CurrencySchema) (t : Int)
    (sender receiver receiver_second receiver_third : Wallet)
    (hp : parseI64 tx.tx_time = some t)
    (hs : s.wallet tx.«from» = some sender)
    (h1 : s.wallet tx.«to» = some receiver)
    (h2 : s.wallet tx.to_second = some receiver_second)
    (h3 : s.wallet tx.to_third = some receiver_third)
    (hbal : sender.balance < tx.amount) :
    ∀ current_time : Int, Transfer.execute tx current_time hash s =
      some (.error (executionErrorFrom .InsufficientCurrencyAmount), s) :=
  fun ct => transfer_insufficient tx ct hash s t sender receiver
    receiver_second receiver_third hp hs h1 h2 h3 hbal

/-- Witness for C4: balance 30 against `amount = 40`, evaluated both
inside (`current_time = 1`) and outside (`current_time = 9999999`) the
time window. -/
theorem c4_witness :
    Transfer.execute ⟨1, 2, 3, 4, 40, 0, "0"⟩ 1 7
      ⟨[⟨1, "A", 30, 0⟩, ⟨2, "B", 0, 0⟩, ⟨3, "C", 0, 0⟩, ⟨4, "D", 0, 0⟩]⟩ =
      some (.error (executionErrorFrom .InsufficientCurrencyAmount),
        ⟨[⟨1, "A", 30, 0⟩, ⟨2, "B", 0, 0⟩, ⟨3, "C", 0, 0⟩,
          ⟨4, "D", 0, 0⟩]⟩) ∧
    Transfer.execute ⟨1, 2, 3, 4, 40, 0, "0"⟩ 9999999 7
      ⟨[⟨1, "A", 30, 0⟩, ⟨2, "B", 0, 0⟩, ⟨3, "C", 0, 0⟩, ⟨4, "D", 0, 0⟩]⟩ =
      some (.error (executionErrorFrom .InsufficientCurrencyAmount),
        ⟨[⟨1, "A", 30, 0⟩, ⟨2, "B", 0, 0⟩, ⟨3, "C", 0, 0⟩,
          ⟨4, "D", 0, 0⟩]⟩) :=
  ⟨c4_transfer_insufficient ⟨1, 2, 3, 4, 40, 0, "0"⟩ 7
    ⟨[⟨1, "A", 30, 0⟩, ⟨2, "B", 0, 0⟩, ⟨3, "C", 0, 0⟩, ⟨4, "D", 0, 0⟩]⟩ 0
    ⟨1, "A", 30, 0⟩ ⟨2, "B", 0, 0⟩ ⟨3, "C", 0, 0⟩ ⟨4, "D", 0, 0⟩
    (by decide) rfl rfl rfl rfl (by decide) 1,
   c4_transfer_insufficient ⟨1, 2, 3, 4, 40, 0, "0"⟩ 7
    ⟨[⟨1, "A", 30, 0⟩, ⟨2, "B", 0, 0⟩, ⟨3, "C", 0, 0⟩, ⟨4, "D", 0, 0⟩]⟩ 0
    ⟨1, "A", 30, 0⟩ ⟨2, "B", 0, 0⟩ ⟨3, "C", 0, 0⟩ ⟨4, "D", 0, 0⟩
    (by decide) rfl rfl rfl rfl (by decide) 9999999⟩

/-- C3: with all four wallets present and a sufficient balance, an
execution-time timestamp outside the open window
`(tx_time, tx_time + 2160000)` yields a successful outcome and leaves
every wallet balance unchanged — a silent no-op, not an error. -/
theorem c3_transfer_window_miss_noop (tx : Transfer) (current_time : Int)
    (hash : Nat) (s : CurrencySchema) (t : Int)
    (sender receiver receiver_second receiver_third : Wallet)
    (hp : parseI64 tx.tx_time = some t)
    (hs : s.wallet tx.«from» = some sender)
    (h1 : s.wallet tx.«to» = some receiver)
    (h2 : s.wallet tx.to_second = some receiver_second)
    (h3 : s.wallet tx.to_third = some receiver_third)
    (hbal : tx.amount ≤ sender.balance)
    (hgate : current_time ≤ t ∨ t + 2160000 ≤ current_time) :
    Transfer.execute tx current_time hash s = some (.ok (), s) := by
  refine transfer_gate_fail tx current_time hash s t sender receiver
    receiver_second receiver_third hp hs h1 h2 h3 (by omega) ?_
  rw [← Bool.not_eq_true, transferGate_iff]
  omega

/-- Witness for C3: `tx_time = 0`, evaluated at `current_time =
3000000 ≥ 2160000`, succeeds with the ledger untouched. -/
theorem c3_witness :
    Transfer.execute ⟨1, 2, 3, 4, 40, 0, "0"⟩ 3000000 7
      ⟨[⟨1, "A", 100, 0⟩, ⟨2, "B", 0, 0⟩, ⟨3, "C", 0, 0⟩, ⟨4, "D", 0, 0⟩]⟩ =
      some (.ok (),
        ⟨[⟨1, "A", 100, 0⟩, ⟨2, "B", 0, 0⟩, ⟨3, "C", 0, 0⟩,
          ⟨4, "D", 0, 0⟩]⟩) :=
  c3_transfer_window_miss_noop ⟨1, 2, 3, 4, 40, 0, "0"⟩ 3000000 7 _ 0
    ⟨1, "A", 100, 0⟩ ⟨2, "B", 0, 0⟩ ⟨3, "C", 0, 0⟩ ⟨4, "D", 0, 0⟩
    (by decide) rfl rfl rfl rfl (by decide) (by omega)

/-- C2: when the four wallets exist at pairwise distinct keys, the
sender's balance covers `amount`, and the gate passes, execution
succeeds; the sender is debited by the `u64` product `amount * 3`,
each recipient credited by `amount`, all four records take this
operation's hash as provenance, every other wallet is untouched — and
for any execution timestamp the outcome is all four mutations or
none. -/
theorem c2_transfer_gate_pass_effects (tx : Transfer) (ct : Int)
    (hash : Nat) (s : CurrencySchema) (t : Int)
    (sender receiver receiver_second receiver_third : Wallet)
    (hp : parseI64 tx.tx_time = some t)
    (hs : s.wallet tx.«from» = some sender)
    (h1 : s.wallet tx.«to» = some receiver)
    (h2 : s.wallet tx.to_second = some receiver_second)
    (h3 : s.wallet tx.to_third = some receiver_third)
    (d12 : tx.«from» ≠ tx.«to») (d13 : tx.«from» ≠ tx.to_second)
    (d14 : tx.«from» ≠ tx.to_third) (d23 : tx.«to» ≠ tx.to_second)
    (d24 : tx.«to» ≠ tx.to_third) (d34 : tx.to_second ≠ tx.to_third)
    (hbal : tx.amount ≤ sender.balance)
    (hgate : t < ct ∧ ct < t + 2160000) :
    ∃ s2, Transfer.execute tx ct hash s = some (.ok (), s2) ∧
      s2.wallet tx.«from» =
        some ⟨sender.pub_key, sender.name,
          u64sub sender.balance (u64mul tx.amount 3), hash⟩ ∧
      s2.wallet tx.«to» =
        some ⟨receiver.pub_key, receiver.name,
          u64add receiver.balance tx.amount, hash⟩ ∧
      s2.wallet tx.to_second =
        some ⟨receiver_second.pub_key, receiver_second.name,
          u64add receiver_second.balance tx.amount, hash⟩ ∧
      s2.wallet tx.to_third =
        some ⟨receiver_third.pub_key, receiver_third.name,
          u64add receiver_third.balance tx.amount, hash⟩ ∧
      (∀ k, k ≠ tx.«from» → k ≠ tx.«to» → k ≠ tx.to_second →
        k ≠ tx.to_third → s2.wallet k = s.wallet k) ∧
      (∀ ct2 r s3, Transfer.execute tx ct2 hash s = some (r, s3) →
        s3 = s ∨ s3 = s2) := by
  have kf : sender.pub_key = tx.«from» := wallet_pub_key hs
  have kt : receiver.pub_key = tx.«to» := wallet_pub_key h1
  have k2 : receiver_second.pub_key = tx.to_second := wallet_pub_key h2
  have k3 : receiver_third.pub_key = tx.to_third := wallet_pub_key h3
  refine ⟨_, transfer_gate_pass tx ct hash s t sender receiver
    receiver_second receiver_third hp hs h1 h2 h3 (by omega)
    ((transferGate_iff t ct).mpr hgate), ?_, ?_, ?_, ?_, ?_, ?_⟩
  · rw [wallet_increase_eq, if_neg (by rw [k3]; exact d14),
      wallet_increase_eq, if_neg (by rw [k2]; exact d13),
      wallet_increase_eq, if_neg (by rw [kt]; exact d12),
      wallet_decrease_eq, if_pos kf.symm, kf, hs]
    simp [kf]
  · rw [wallet_increase_eq, if_neg (by rw [k3]; exact d24),
      wallet_increase_eq, if_neg (by rw [k2]; exact d23),
      wallet_increase_eq, if_pos kt.symm, kt,
      wallet_decrease_eq, if_neg (by rw [kf]; exact fun h => d12 h.symm), h1]
    simp [kt]
  · rw [wallet_increase_eq, if_neg (by rw [k3]; exact d34),
      wallet_increase_eq, if_pos k2.symm, k2,
      wallet_increase_eq, if_neg (by rw [kt]; exact fun h => d23 h.symm),
      wallet_decrease_eq, if_neg (by rw [kf]; exact fun h => d13 h.symm), h2]
    simp [k2]
  · rw [wallet_increase_eq, if_pos k3.symm, k3,
      wallet_increase_eq, if_neg (by rw [k2]; exact fun h => d34 h.symm),
      wallet_increase_eq, if_neg (by rw [kt]; exact fun h => d24 h.symm),
      wallet_decrease_eq, if_neg (by rw [kf]; exact fun h => d14 h.symm), h3]
    simp [k3]
  · intro k hk1 hk2 hk3 hk4
    rw [wallet_increase_eq, if_neg (by rw [k3]; exact hk4),
      wallet_increase_eq, if_neg (by rw [k2]; exact hk3),
      wallet_increase_eq, if_neg (by rw [kt]; exact hk2),
      wallet_decrease_eq, if_neg (by rw [kf]; exact hk1)]
  · intro ct2 r s3 he
    simp only [Transfer.execute, hp, hs, h1, h2, h3,
      if_neg (show ¬ sender.balance < tx.amount by omega)] at he
    split at he
    · simp only [Option.some.injEq, Prod.mk.injEq] at he
      exact Or.inr he.2.symm
    · simp only [Option.some.injEq, Prod.mk.injEq] at he
      exact Or.inl he.2.symm

/-- Witness for C2: wallet 1 holding 100 transfers 10 to wallets 2, 3,
4 at `tx_time = 0`, `current_time = 1`. -/
theorem c2_witness :
    ∃ s2, Transfer.execute ⟨1, 2, 3, 4, 10, 0, "0"⟩ 1 42
        ⟨[⟨1, "A", 100, 7⟩, ⟨2, "B", 5, 7⟩, ⟨3, "C", 6, 7⟩,
          ⟨4, "D", 8, 7⟩]⟩ = some (.ok (), s2) ∧
      s2.wallet 1 = some ⟨1, "A", u64sub 100 (u64mul 10 3), 42⟩ ∧
      s2.wallet 2 = some ⟨2, "B", u64add 5 10, 42⟩ ∧
      s2.wallet 3 = some ⟨3, "C", u64add 6 10, 42⟩ ∧
      s2.wallet 4 = some ⟨4, "D", u64add 8 10, 42⟩ ∧
      (∀ k, k ≠ 1 → k ≠ 2 → k ≠ 3 → k ≠ 4 →
        s2.wallet k =
          CurrencySchema.wallet ⟨[⟨1, "A", 100, 7⟩, ⟨2, "B", 5, 7⟩,
            ⟨3, "C", 6, 7⟩, ⟨4, "D", 8, 7⟩]⟩ k) ∧
      (∀ ct2 r s3, Transfer.execute ⟨1, 2, 3, 4, 10, 0, "0"⟩ ct2 42
          ⟨[⟨1, "A", 100, 7⟩, ⟨2, "B", 5, 7⟩, ⟨3, "C", 6, 7⟩,
            ⟨4, "D", 8, 7⟩]⟩ = some (r, s3) →
        s3 = ⟨[⟨1, "A", 100, 7⟩, ⟨2, "B", 5, 7⟩, ⟨3, "C", 6, 7⟩,
          ⟨4, "D", 8, 7⟩]⟩ ∨ s3 = s2) :=
  c2_transfer_gate_pass_effects ⟨1, 2, 3, 4, 10, 0, "0"⟩ 1 42
    ⟨[⟨1, "A", 100, 7⟩, ⟨2, "B", 5, 7⟩, ⟨3, "C", 6, 7⟩, ⟨4, "D", 8, 7⟩]⟩ 0
    ⟨1, "A", 100, 7⟩ ⟨2, "B", 5, 7⟩ ⟨3, "C", 6, 7⟩ ⟨4, "D", 8, 7⟩
    (by decide) rfl rfl rfl rfl
    (by decide) (by decide) (by decide) (by decide) (by decide) (by decide)
    (by decide) ⟨by decide, by decide⟩

/-- C6: `CreateWallet::execute` on a free key creates exactly one
wallet — balance 0, provenance this operation's hash — and succeeds;
on an occupied key it fails with `WalletAlreadyExists` and mutates
nothing, so a second `CreateWallet` for the same key never succeeds. -/
theorem c6_create_wallet_spec (tx : CreateWallet) (hash : Nat)
    (s : CurrencySchema) :
    (s.wallet tx.pub_key = none →
      CreateWallet.execute tx hash s =
        (.ok (), s.create_wallet tx.pub_key tx.name hash) ∧
      (s.create_wallet tx.pub_key tx.name hash).wallet tx.pub_key =
        some ⟨tx.pub_key, tx.name, 0, hash⟩ ∧
      ∀ k, k ≠ tx.pub_key →
        (s.create_wallet tx.pub_key tx.name hash).wallet k = s.wallet k) ∧
    (∀ w, s.wallet tx.pub_key = some w →
      CreateWallet.execute tx hash s =
        (.error (executionErrorFrom .WalletAlreadyExists), s)) := by
  constructor
  · intro hnone
    refine ⟨?_, ?_, ?_⟩
    · unfold CreateWallet.execute
      rw [hnone]
    · rw [wallet_create_eq]
      simp
    · intro k hk
      rw [wallet_create_eq, if_neg hk]
  · intro w hw
    unfold CreateWallet.execute
    rw [hw]

/-- Witness for C6: creating wallet 1 on the empty ledger succeeds;
re-creating it fails with `WalletAlreadyExists` and mutates nothing. -/
theorem c6_witness :
    CreateWallet.execute ⟨1, "A"⟩ 5 ⟨[]⟩ =
      (.ok (), CurrencySchema.create_wallet ⟨[]⟩ 1 "A" 5) ∧
    CreateWallet.execute ⟨1, "A"⟩ 6 (CurrencySchema.create_wallet ⟨[]⟩ 1 "A" 5)
      = (.error (executionErrorFrom .WalletAlreadyExists),
        CurrencySchema.create_wallet ⟨[]⟩ 1 "A" 5) :=
  ⟨((c6_create_wallet_spec ⟨1, "A"⟩ 5 ⟨[]⟩).1 rfl).1,
   (c6_create_wallet_spec ⟨1, "A"⟩ 6
      (CurrencySchema.create_wallet ⟨[]⟩ 1 "A" 5)).2 ⟨1, "A", 0, 5⟩ rfl⟩

/-- C7: `Issue::execute` on an existing wallet succeeds and raises its
balance by `amount + amount_second + amount_third` (`u64` arithmetic),
recording this operation's hash as new provenance and touching no
other wallet; on a missing wallet it fails with `ReceiverNotFound`
and mutates nothing. -/
theorem c7_issue_spec (tx : Issue) (hash : Nat) (s : CurrencySchema) :
    (∀ w, s.wallet tx.pub_key = some w →
      (Issue.execute tx hash s).1 = .ok () ∧
      (Issue.execute tx hash s).2.wallet tx.pub_key =
        some ⟨w.pub_key, w.name,
          (w.balance + (tx.amount + tx.amount_second + tx.amount_third)) %
            U64MOD, hash⟩ ∧
      ∀ k, k ≠ tx.pub_key →
        (Issue.execute tx hash s).2.wallet k = s.wallet k) ∧
    (s.wallet tx.pub_key = none →
      Issue.execute tx hash s =
        (.error (executionErrorFrom .ReceiverNotFound), s)) := by
  constructor
  · intro w hw
    have hk : w.pub_key = tx.pub_key := wallet_pub_key hw
    have hexec : Issue.execute tx hash s =
        (.ok (), s.increase_wallet_balance w
          (u64add (u64add tx.amount_third tx.amount) tx.amount_second)
          hash) := by
      unfold Issue.execute
      rw [hw]
    refine ⟨by rw [hexec], ?_, ?_⟩
    · rw [hexec]
      dsimp only
      rw [wallet_increase_eq, if_pos hk.symm, hk, hw]
      simp [hk, u64add_sum]
    · intro k hkne
      rw [hexec]
      dsimp only
      rw [wallet_increase_eq, if_neg (by rw [hk]; exact hkne)]
  · intro hnone
    unfold Issue.execute
    rw [hnone]

/-- Witness for C7: issuing `(7, 8, 9)` to wallet 1 (balance 5) yields
balance 29 with the new provenance; a second wallet is untouched; an
issue to the missing wallet 3 fails with `ReceiverNotFound`. -/
theorem c7_witness :
    ((Issue.execute ⟨1, 7, 8, 9, 0⟩ 21
        ⟨[⟨1, "A", 5, 2⟩, ⟨2, "B", 4, 2⟩]⟩).1 = .ok () ∧
      (Issue.execute ⟨1, 7, 8, 9, 0⟩ 21
        ⟨[⟨1, "A", 5, 2⟩, ⟨2, "B", 4, 2⟩]⟩).2.wallet 1 =
        some ⟨1, "A", (5 + (7 + 8 + 9)) % U64MOD, 21⟩ ∧
      ∀ k, k ≠ 1 →
        (Issue.execute ⟨1, 7, 8, 9, 0⟩ 21
          ⟨[⟨1, "A", 5, 2⟩, ⟨2, "B", 4, 2⟩]⟩).2.wallet k =
          CurrencySchema.wallet ⟨[⟨1, "A", 5, 2⟩, ⟨2, "B", 4, 2⟩]⟩ k) ∧
    Issue.execute ⟨3, 7, 8, 9, 0⟩ 21 ⟨[⟨1, "A", 5, 2⟩]⟩ =
      (.error (executionErrorFrom .ReceiverNotFound), ⟨[⟨1, "A", 5, 2⟩]⟩) :=
  ⟨(c7_issue_spec ⟨1, 7, 8, 9, 0⟩ 21 ⟨[⟨1, "A", 5, 2⟩, ⟨2, "B", 4, 2⟩]⟩).1
      ⟨1, "A", 5, 2⟩ rfl,
   (c7_issue_spec ⟨3, 7, 8, 9, 0⟩ 21 ⟨[⟨1, "A", 5, 2⟩]⟩).2 rfl⟩

/-- C1 counterexample: from the reachable state `c1State` (wallet 1
holds 40 after four creates and one issue), the transfer of
`amount = 40` to wallets 2, 3, 4 at `tx_time = 0`, `current_time = 1`
passes the single-amount check and commits, yet debits
`3 * 40 = 120 > 40`: the sender's mathematical balance is driven below
zero (the stored `u64` wraps to `2 ^ 64 - 80`), refuting the claimed
invariant. -/
theorem c1_counterexample : ¬ transferKeepsSenderNonneg := fun h =>
  absurd
    (h ⟨1, 2, 3, 4, 40, 0, "0"⟩ 1 16 c1State
      (applyOp c1State (.transfer ⟨1, 2, 3, 4, 40, 0, "0"⟩ 1 16))
      ⟨1, "A", 40, 15⟩ rfl rfl (by decide))
    (by decide)

/-- C1 amended: stored balances are unsigned, hence never negative as
represented; and whenever a committed transfer's total debit fits the
sender's balance — `3 * amount ≤ balance`, strictly stronger than the
executed check `amount ≤ balance` — the sender's resulting balance is
exactly `balance - 3 * amount`, with no wraparound, hence the
mathematical balance stays non-negative. -/
theorem c1_amended_transfer_nonneg (tx : Transfer) (ct : Int) (hash : Nat)
    (s : CurrencySchema) (t : Int)
    (sender receiver receiver_second receiver_third : Wallet)
    (hp : parseI64 tx.tx_time = some t)
    (hs : s.wallet tx.«from» = some sender)
    (h1 : s.wallet tx.«to» = some receiver)
    (h2 : s.wallet tx.to_second = some receiver_second)
    (h3 : s.wallet tx.to_third = some receiver_third)
    (d12 : tx.«from» ≠ tx.«to») (d13 : tx.«from» ≠ tx.to_second)
    (d14 : tx.«from» ≠ tx.to_third)
    (hwf : sender.balance < U64MOD)
    (hbal3 : 3 * tx.amount ≤ sender.balance)
    (hgate : transferGate t ct = true) :
    ∃ s2, Transfer.execute tx ct hash s = some (.ok (), s2) ∧
      s2.wallet tx.«from» =
        some ⟨sender.pub_key, sender.name,
          sender.balance - 3 * tx.amount, hash⟩ := by
  have kf : sender.pub_key = tx.«from» := wallet_pub_key hs
  have kt : receiver.pub_key = tx.«to» := wallet_pub_key h1
  have k2 : receiver_second.pub_key = tx.to_second := wallet_pub_key h2
  have k3 : receiver_third.pub_key = tx.to_third := wallet_pub_key h3
  refine ⟨_, transfer_gate_pass tx ct hash s t sender receiver
    receiver_second receiver_third hp hs h1 h2 h3 (by omega) hgate, ?_⟩
  rw [wallet_increase_eq, if_neg (by rw [k3]; exact d14),
    wallet_increase_eq, if_neg (by rw [k2]; exact d13),
    wallet_increase_eq, if_neg (by rw [kt]; exact d12),
    wallet_decrease_eq, if_pos kf.symm, kf, hs]
  have hm : u64mul tx.amount 3 = 3 * tx.amount := by
    unfold u64mul
    rw [Nat.mod_eq_of_lt (by omega), Nat.mul_comm]
  simp [kf, hm, u64sub_of_le sender.balance (3 * tx.amount) hwf hbal3]

/-- Witness for the amended C1: from `c1State`, a committed transfer
of `amount = 10` (total debit 30 ≤ 40) leaves the sender with exactly
`40 - 30 = 10`. -/
theorem c1_amended_witness :
    ∃ s2, Transfer.execute ⟨1, 2, 3, 4, 10, 0, "0"⟩ 1 17 c1State =
        some (.ok (), s2) ∧
      s2.wallet 1 = some ⟨1, "A", 40 - 3 * 10, 17⟩ :=
  c1_amended_transfer_nonneg ⟨1, 2, 3, 4, 10, 0, "0"⟩ 1 17 c1State 0
    ⟨1, "A", 40, 15⟩ ⟨2, "B", 0, 12⟩ ⟨3, "C", 0, 13⟩ ⟨4, "D", 0, 14⟩
    (by decide) rfl rfl rfl rfl
    (by decide) (by decide) (by decide) (by decide) (by decide) (by decide)

end Currency
